import Mathlib

/-!
Verification development for the react-audio-recorder library.

The embedding models the sample-frame encoder (src/utils/pcm.ts and
src/utils/mp3.ts) and the hook state machine (src/hooks/useAudioRecorder.ts).
Float32 samples are modelled as rationals: every arithmetic step the source
performs on a sample (clamping, multiplying by 32768 or 32767) is exact in
IEEE double precision, so rational arithmetic is bit-faithful.  JavaScript
integer-truncation conversions (DataView.setInt16, Int16Array stores) are
modelled explicitly.
-/

namespace AudioRec

/-- Status values of the recorder session, from RecorderStatus in types.ts. -/
inductive RecorderStatus
  | idle
  | recording
  | paused
  | stopped
  | unsupported
  deriving DecidableEq, Repr

/-- Output formats, from RecorderFormat in types.ts. -/
inductive RecorderFormat
  | wav
  | webm
  | mp3
  deriving DecidableEq, Repr

/-- A PCMFrame is an array of per-channel Float32 buffers (pcm.ts line 1). -/
abbrev PCMFrame := List (List ℚ)

/-- Clamping step Math.max(-1, Math.min(1, sample)) shared by floatTo16BitPCM
(pcm.ts line 25), the encodeWav data loop (pcm.ts line 88) and float32ToInt16
(mp3.ts line 17). -/
def clampSample (x : ℚ) : ℚ := max (-1) (min 1 x)

/-- Truncation toward zero of a rational number: the ToIntegerOrInfinity step
JavaScript applies when a non-integral number is stored through
DataView.setInt16 or assigned into an Int16Array. -/
def ratTrunc (q : ℚ) : ℤ := if q < 0 then -⌊-q⌋ else ⌊q⌋

/-- Asymmetric scaling sample < 0 ? sample * 0x8000 : sample * 0x7fff applied
to the clamped sample (pcm.ts lines 26 and 89, mp3.ts line 18). -/
def scaleSample (x : ℚ) : ℚ :=
  if clampSample x < 0 then clampSample x * 32768 else clampSample x * 32767

/-- Two little-endian bytes of the 16-bit pattern of v, exactly what
DataView.setInt16(offset, v, true) stores: the value is wrapped modulo 2^16
and split least-significant byte first. -/
def int16BytesLE (v : ℤ) : List ℕ :=
  [(v % 65536).toNat % 256, (v % 65536).toNat / 256]

/-- One iteration of the sample-writing loop shared by floatTo16BitPCM
(pcm.ts lines 23-28) and the data loop of encodeWav (pcm.ts lines 85-91):
clamp, scale asymmetrically, truncate, store as little-endian int16. -/
def pcmSampleBytes (x : ℚ) : List ℕ := int16BytesLE (ratTrunc (scaleSample x))

/-- Wrap of an integer into the signed 16-bit range, the ToInt16 conversion
applied when a number is assigned into an Int16Array element. -/
def toInt16 (v : ℤ) : ℤ :=
  if v % 65536 < 32768 then v % 65536 else v % 65536 - 65536

/-- Embedding of float32ToInt16 (mp3.ts lines 14-21): per-sample clamp, the
asymmetric scaling, truncation, and the Int16Array store. -/
def float32ToInt16 (buf : List ℚ) : List ℤ :=
  buf.map fun x => toInt16 (ratTrunc (scaleSample x))

/-- Signed 16-bit value denoted by two bytes read back in little-endian order;
used to state what bit pattern the encoder wrote. -/
def decodeInt16LE (bs : List ℕ) : ℤ :=
  if ((bs.getD 0 0 : ℤ) + 256 * (bs.getD 1 0 : ℤ)) < 32768 then
    (bs.getD 0 0 : ℤ) + 256 * (bs.getD 1 0 : ℤ)
  else
    (bs.getD 0 0 : ℤ) + 256 * (bs.getD 1 0 : ℤ) - 65536

theorem clampSample_le_one (x : ℚ) : clampSample x ≤ 1 := by
  unfold clampSample
  rcases le_total (-1 : ℚ) (min 1 x) with h | h
  · rw [max_eq_right h]; exact min_le_left _ _
  · rw [max_eq_left h]; norm_num

theorem neg_one_le_clampSample (x : ℚ) : -1 ≤ clampSample x := le_max_left _ _

theorem ratTrunc_nonneg_bounds (q : ℚ) (b : ℤ) (h0 : 0 ≤ q) (hb : q ≤ (b : ℚ)) :
    0 ≤ ratTrunc q ∧ ratTrunc q ≤ b := by
  unfold ratTrunc
  rw [if_neg (not_lt.mpr h0)]
  constructor
  · exact Int.le_floor.mpr (by exact_mod_cast h0)
  · exact (Int.floor_mono hb).trans_eq (Int.floor_intCast b)

theorem ratTrunc_neg_bounds (q : ℚ) (a : ℤ) (ha : (a : ℚ) ≤ q) (h0 : q < 0) :
    a ≤ ratTrunc q ∧ ratTrunc q ≤ 0 := by
  unfold ratTrunc
  rw [if_pos h0]
  constructor
  · have : ⌊-q⌋ ≤ -a := by
      have : (-q : ℚ) ≤ ((-a : ℤ) : ℚ) := by push_cast; linarith
      exact (Int.floor_mono this).trans_eq (Int.floor_intCast (-a))
    omega
  · have : (0 : ℤ) ≤ ⌊-q⌋ := Int.le_floor.mpr (by push_cast; linarith)
    omega

/-- Bounds on the truncated scaled sample: it always fits a signed 16-bit
integer. -/
theorem scaled_sample_fits_int16 (x : ℚ) :
    -32768 ≤ ratTrunc (scaleSample x) ∧ ratTrunc (scaleSample x) ≤ 32767 := by
  have h1 : clampSample x ≤ 1 := clampSample_le_one x
  have h2 : -1 ≤ clampSample x := neg_one_le_clampSample x
  unfold scaleSample
  by_cases hc : clampSample x < 0
  · rw [if_pos hc]
    have hb := ratTrunc_neg_bounds (clampSample x * 32768) (-32768)
      (by push_cast; nlinarith) (by nlinarith)
    exact ⟨hb.1, by omega⟩
  · rw [if_neg hc]
    push_neg at hc
    have hb := ratTrunc_nonneg_bounds (clampSample x * 32767) 32767
      (by nlinarith) (by push_cast; nlinarith)
    exact ⟨by omega, hb.2⟩

/-- Decoding the two stored bytes recovers the value whenever it fits the
signed 16-bit range. -/
theorem decode_int16BytesLE (v : ℤ) (h1 : -32768 ≤ v) (h2 : v ≤ 32767) :
    decodeInt16LE (int16BytesLE v) = v := by
  unfold decodeInt16LE int16BytesLE
  simp only [List.getD_cons_zero, List.getD_cons_succ]
  split_ifs <;> omega

/-- C4: for every input float sample x, the 16-bit value written during PCM
conversion is stored as two little-endian bytes that decode to the integer
truncation of clamp(x, -1, 1) * 32768 when the clamped value is negative and
of clamp(x, -1, 1) * 32767 when it is non-negative; no rounding is applied,
and the value always fits a signed 16-bit integer. -/
theorem pcm_conversion_is_truncated_asymmetric_scaling (x : ℚ) :
    (pcmSampleBytes x).length = 2 ∧
    decodeInt16LE (pcmSampleBytes x) =
      ratTrunc (if clampSample x < 0 then clampSample x * 32768
                else clampSample x * 32767) ∧
    -32768 ≤ decodeInt16LE (pcmSampleBytes x) ∧
    decodeInt16LE (pcmSampleBytes x) ≤ 32767 := by
  have hb := scaled_sample_fits_int16 x
  have hscale : (if clampSample x < 0 then clampSample x * 32768
      else clampSample x * 32767) = scaleSample x := rfl
  have hdec : decodeInt16LE (pcmSampleBytes x) = ratTrunc (scaleSample x) :=
    decode_int16BytesLE _ hb.1 hb.2
  refine ⟨rfl, ?_, ?_, ?_⟩
  · rw [hdec, hscale]
  · rw [hdec]; exact hb.1
  · rw [hdec]; exact hb.2

/-- Bytes of setUint16(offset, v, true): little-endian, wrapped modulo 2^16. -/
def u16LE (v : ℕ) : List ℕ := [v % 256, v / 256 % 256]

/-- Bytes of setUint32(offset, v, true): little-endian, wrapped modulo 2^32. -/
def u32LE (v : ℕ) : List ℕ :=
  [v % 256, v / 256 % 256, v / 65536 % 256, v / 16777216 % 256]

/-- Bytes of setUint32(offset, v, false): big-endian byte order, as the source
uses for the four chunk identifiers. -/
def u32BE (v : ℕ) : List ℕ := (u32LE v).reverse

/-- Embedding of writeWavHeader (pcm.ts lines 30-74): the 44 header bytes.
The source stores the chunk identifiers with setUint32(offset, c, false),
which is big-endian, and every numeric field little-endian. -/
def writeWavHeader (sampleRate channelCount bytesLength : ℕ) : List ℕ :=
  u32BE 0x46464952 ++ u32LE (36 + bytesLength) ++ u32BE 0x45564157 ++
    u32BE 0x20746d66 ++ u32LE 16 ++ u16LE 1 ++ u16LE channelCount ++
    u32LE sampleRate ++ u32LE (sampleRate * (channelCount * 2)) ++
    u16LE (channelCount * 2) ++ u16LE 16 ++ u32BE 0x61746164 ++
    u32LE bytesLength

/-- Length in samples of the first channel of a frame, frame[0]?.length ?? 0
(pcm.ts lines 8, 14, 17). -/
def headLen (f : PCMFrame) : ℕ := (f.headD []).length

/-- Channel buffer the merge loop reads for a frame:
frame[channel] ?? new Float32Array(frame[0]?.length ?? 0) (pcm.ts line 14). -/
def frameChannel (f : PCMFrame) (ch : ℕ) : List ℚ :=
  f.getD ch (List.replicate (headLen f) 0)

/-- Embedding of Float32Array.set(input, offset) on a backing buffer: the
claims only exercise in-bounds writes, where the result is the buffer with
the slice at offset replaced by input. -/
def listSet (target input : List ℚ) (offset : ℕ) : List ℚ :=
  target.take offset ++ input ++ target.drop (offset + input.length)

/-- The per-frame write loop of mergePCMFrames for one channel (pcm.ts lines
11-18): each frame's channel buffer is written at the running offset, which
advances by frame[0].length. -/
def mergeChannelGo (frames : List PCMFrame) (ch : ℕ) (acc : List ℚ)
    (offset : ℕ) : List ℚ :=
  match frames with
  | [] => acc
  | f :: rest =>
    mergeChannelGo rest ch (listSet acc (frameChannel f ch) offset)
      (offset + headLen f)

/-- Embedding of mergePCMFrames (pcm.ts lines 3-21).  The source loops the
frames once and writes every channel at a shared offset; writes to distinct
channels touch distinct buffers, so iterating the same loop once per channel
computes the same buffers. -/
def mergePCMFrames (frames : List PCMFrame) (channelCount : ℕ) :
    List (List ℚ) :=
  if frames.isEmpty then List.replicate channelCount []
  else
    (List.range channelCount).map fun ch =>
      mergeChannelGo frames ch (List.replicate ((frames.map headLen).sum) 0) 0

/-- Data-section bytes of encodeWav (pcm.ts lines 84-92): for every sample
index the loop writes each channel's converted sample in channel order.  A
JavaScript out-of-range read yields undefined, which setInt16 stores as 0;
the default 0 sample produces the same two zero bytes. -/
def wavDataBytes (merged : List (List ℚ)) (channelCount n : ℕ) : List ℕ :=
  (List.range n).flatMap fun i =>
    (List.range channelCount).flatMap fun ch =>
      pcmSampleBytes ((merged.getD ch []).getD i 0)

/-- Embedding of encodeWav (pcm.ts lines 76-95), as the byte list of the
produced Blob.  bytesLength is merged[0].length * 2 * channelCount; the model
requires channelCount ≥ 1 for merged[0] to exist, as the source does. -/
def encodeWavBytes (frames : List PCMFrame) (sampleRate channelCount : ℕ) :
    List ℕ :=
  let merged := mergePCMFrames frames channelCount
  let n := (merged.headD []).length
  writeWavHeader sampleRate channelCount (n * 2 * channelCount) ++
    wavDataBytes merged channelCount n

/-- C3: code bug.  encodeWav on the empty frame list does produce a 44-byte
buffer with data size 0 and consistent numeric fields, but the container is
not a valid RIFF/WAVE file: the source writes the four chunk identifiers with
setUint32(..., false) (big-endian) using the little-endian constants, so the
file starts with the bytes of the string FFIR instead of RIFF, and the WAVE,
fmt and data identifiers are byte-reversed the same way, contradicting the
source's own comments (RIFF identifier, WAVE identifier, ...). -/
theorem encodeWav_chunk_identifiers_byte_reversed :
    (encodeWavBytes [] 44100 1).length = 44 ∧
    (encodeWavBytes [] 44100 1).take 4 = [0x46, 0x46, 0x49, 0x52] ∧
    (encodeWavBytes [] 44100 1).take 4 ≠ [0x52, 0x49, 0x46, 0x46] ∧
    ((encodeWavBytes [] 44100 1).drop 8).take 4 = [0x45, 0x56, 0x41, 0x57] ∧
    ((encodeWavBytes [] 44100 1).drop 36).take 4 = [0x61, 0x74, 0x61, 0x64] := by
  refine ⟨?_, ?_, ?_, ?_, ?_⟩ <;> decide

/-- Well-formedness of a captured SampleFrame: every channel buffer has the
first channel's length (guaranteed by the capture callbacks, which copy
equal-length channel buffers of one processing block). -/
def wfFrame (f : PCMFrame) : Prop := ∀ buf ∈ f, buf.length = headLen f

instance (f : PCMFrame) : Decidable (wfFrame f) := by
  unfold wfFrame; infer_instance

theorem frameChannel_length (f : PCMFrame) (ch : ℕ) (hf : wfFrame f) :
    (frameChannel f ch).length = headLen f := by
  unfold frameChannel
  by_cases h : ch < f.length
  · rw [List.getD_eq_getElem _ _ h]
    exact hf _ (List.getElem_mem h)
  · rw [List.getD_eq_default _ _ (by omega)]
    exact List.length_replicate _ _

theorem mergeChannelGo_concat (ch : ℕ) (frames : List PCMFrame) :
    ∀ done : List ℚ, (∀ f ∈ frames, wfFrame f) →
      mergeChannelGo frames ch
          (done ++ List.replicate ((frames.map headLen).sum) 0) done.length
        = done ++ (frames.map fun f => frameChannel f ch).flatten := by
  induction frames with
  | nil => intro done _; simp [mergeChannelGo]
  | cons f rest ih =>
    intro done hwf
    have hlen : (frameChannel f ch).length = headLen f :=
      frameChannel_length f ch (hwf f (by simp))
    have hset : listSet
        (done ++ List.replicate (headLen f + (rest.map headLen).sum) 0)
        (frameChannel f ch) done.length
        = (done ++ frameChannel f ch) ++
            List.replicate ((rest.map headLen).sum) 0 := by
      unfold listSet
      rw [List.take_left, hlen, List.drop_append, List.drop_replicate,
        Nat.add_sub_cancel_left, List.append_assoc]
    have hoff : done.length + headLen f = (done ++ frameChannel f ch).length := by
      rw [List.length_append, hlen]
    rw [List.map_cons, List.sum_cons]
    conv_lhs => rw [mergeChannelGo]
    rw [hset, hoff, ih (done ++ frameChannel f ch) fun g hg => hwf g (by simp [hg])]
    simp [List.append_assoc]

/-- Under well-formed frames, the merge loop of mergePCMFrames produces, for
each channel, exactly the concatenation of the frames' channel buffers in
append order: no sample is dropped, duplicated or reordered. -/
theorem mergePCMFrames_eq_concat (frames : List PCMFrame) (c : ℕ)
    (hwf : ∀ f ∈ frames, wfFrame f) :
    mergePCMFrames frames c =
      (List.range c).map fun ch =>
        (frames.map fun f => frameChannel f ch).flatten := by
  unfold mergePCMFrames
  by_cases h : frames.isEmpty
  · rw [if_pos h]
    rw [List.isEmpty_iff.mp h]
    simp only [List.map_nil, List.flatten_nil]
    rw [List.map_const', List.length_range]
  · rw [if_neg h]
    apply List.map_congr_left
    intro ch _
    have := mergeChannelGo_concat ch frames [] hwf
    simpa using this

/-- Specification-side channel content (spec section 4.2 order preservation):
channel ch of the session's audio is the concatenation, in feed order, of the
frames' channel-ch buffers. -/
def specChannel (frames : List PCMFrame) (ch : ℕ) : List ℚ :=
  (frames.map fun f => f.getD ch []).flatten

/-- Specification-side data section: the input samples, clamp-converted per
the section 4.2 rule, concatenated in feed order and channel-interleaved. -/
def specDataBytes (frames : List PCMFrame) (channelCount : ℕ) : List ℕ :=
  (List.range (specChannel frames 0).length).flatMap fun i =>
    (List.range channelCount).flatMap fun ch =>
      pcmSampleBytes ((specChannel frames ch).getD i 0)

theorem mergePCMFrames_eq_spec (frames : List PCMFrame) (c : ℕ)
    (hfull : ∀ f ∈ frames, f.length = c) (hwf : ∀ f ∈ frames, wfFrame f) :
    mergePCMFrames frames c = (List.range c).map (specChannel frames) := by
  rw [mergePCMFrames_eq_concat frames c hwf]
  apply List.map_congr_left
  intro ch hch
  unfold specChannel
  congr 1
  apply List.map_congr_left
  intro f hf
  have h1 : ch < f.length := by
    rw [hfull f hf]; exact List.mem_range.mp hch
  unfold frameChannel
  rw [List.getD_eq_getElem _ _ h1, List.getD_eq_getElem _ _ h1]

theorem headD_map_range {α : Type} (g : ℕ → α) (c : ℕ) (d : α) (h : 1 ≤ c) :
    ((List.range c).map g).headD d = g 0 := by
  obtain ⟨k, rfl⟩ : ∃ k, c = k + 1 := ⟨c - 1, by omega⟩
  rw [List.range_succ_eq_map]
  simp

theorem getD_map_range {α : Type} (g : ℕ → α) (c ch : ℕ) (d : α) (h : ch < c) :
    ((List.range c).map g).getD ch d = g ch := by
  rw [List.getD_eq_getElem _ _ (by simpa using h)]
  simp

theorem writeWavHeader_length (r c b : ℕ) :
    (writeWavHeader r c b).length = 44 := by
  simp [writeWavHeader, u32LE, u16LE, u32BE]

/-- C5: for every frame sequence in which each frame carries exactly
channelCount equal-length channel buffers, the data section of encodeWav (the
bytes after the 44-byte header) is exactly the input samples, clamp-converted
per the conversion rule, concatenated in feed order and channel-interleaved:
no sample is dropped, duplicated or reordered. -/
theorem encodeWav_data_section_preserves_order (frames : List PCMFrame)
    (rate c : ℕ) (hc : 1 ≤ c) (hfull : ∀ f ∈ frames, f.length = c)
    (hwf : ∀ f ∈ frames, wfFrame f) :
    (encodeWavBytes frames rate c).drop 44 = specDataBytes frames c := by
  have heq : encodeWavBytes frames rate c =
      writeWavHeader rate c
          ((((List.range c).map (specChannel frames)).headD []).length * 2 * c) ++
        wavDataBytes ((List.range c).map (specChannel frames)) c
          ((((List.range c).map (specChannel frames)).headD []).length) := by
    unfold encodeWavBytes
    rw [mergePCMFrames_eq_spec frames c hfull hwf]
  rw [heq, headD_map_range (specChannel frames) c [] hc,
    ← writeWavHeader_length rate c ((specChannel frames 0).length * 2 * c),
    List.drop_left]
  unfold wavDataBytes specDataBytes
  apply List.flatMap_congr
  intro i _
  apply List.flatMap_congr
  intro ch hch
  rw [getD_map_range (specChannel frames) c ch [] (List.mem_range.mp hch)]

/-- Five mono two-sample frames with a known pattern, used to instantiate the
order-preservation theorem. -/
def demoFrames : List PCMFrame :=
  [[[0, 1]], [[1, 0]], [[0, 0]], [[1, 1]], [[0, 1]]]

theorem encodeWav_data_section_preserves_order_witness :
    1 ≤ 1 ∧ (encodeWavBytes demoFrames 48000 1).drop 44 = specDataBytes demoFrames 1 :=
  ⟨le_refl 1,
    encodeWav_data_section_preserves_order demoFrames 48000 1 (by decide)
      (by decide) (by decide)⟩

/-- Errors thrown by encodeMp3's input validation; the spec's error taxonomy
names both InvalidInput. -/
inductive Mp3Error
  | invalidInput (msg : String)
  deriving DecidableEq, Repr

/-- Interface of the external lamejs Mp3Encoder, consumed as a black box with
abstract internal state E: encodeBuffer receives the left channel and, for
stereo sources, the right channel, and returns the emitted chunk; flush
returns the final chunk.  sampleRate and bitrate only parameterise the
encoder's construction, which the abstract initial state stands for. -/
structure LameEncoder (E : Type) where
  encodeBuffer : E → List ℤ → Option (List ℤ) → E × List ℕ
  flush : E → List ℕ

/-- PCM buffers encodeMp3 feeds to the external encoder for one frame
(mp3.ts lines 53-66): the left channel is float32ToInt16(frame[0]); for
channelCount 2 the right channel is float32ToInt16(frame[1] ?? frame[0]). -/
def mp3FrameFeed (channelCount : ℕ) (f : PCMFrame) :
    List ℤ × Option (List ℤ) :=
  if channelCount = 2 then
    (float32ToInt16 (f.headD []),
      some (float32ToInt16 (f.getD 1 (f.headD []))))
  else
    (float32ToInt16 (f.headD []), none)

/-- One forEach step of encodeMp3: feed the frame's PCM and collect the
returned chunk when it is non-empty, preserving emission order. -/
def encodeMp3Step {E : Type} (lame : LameEncoder E) (channelCount : ℕ)
    (st : E × List (List ℕ)) (f : PCMFrame) : E × List (List ℕ) :=
  let fed := mp3FrameFeed channelCount f
  let out := lame.encodeBuffer st.1 fed.1 fed.2
  (out.1, if out.2.length ≠ 0 then st.2 ++ [out.2] else st.2)

/-- Embedding of encodeMp3 (mp3.ts lines 34-75): validate, feed each frame to
the external encoder, flush, and concatenate the collected chunks into the
produced Blob's bytes. -/
def encodeMp3 {E : Type} (enc0 : E) (lame : LameEncoder E)
    (frames : List PCMFrame) (channelCount : ℕ) :
    Except Mp3Error (List ℕ) :=
  if frames.length = 0 then
    Except.error
      (Mp3Error.invalidInput "Cannot encode MP3 without PCM frames.")
  else if channelCount < 1 ∨ channelCount > 2 then
    Except.error (Mp3Error.invalidInput
      "MP3 fallback currently supports mono or stereo sources.")
  else
    let done := frames.foldl (encodeMp3Step lame channelCount) (enc0, [])
    let flushChunk := lame.flush done.1
    Except.ok
      ((if flushChunk.length ≠ 0 then done.2 ++ [flushChunk]
        else done.2).flatten)

/-- C6: encodeMp3 fails with an InvalidInput error exactly when the frame
list is empty or channelCount lies outside one and two; otherwise its input
validation passes and encoding proceeds to a result. -/
theorem encodeMp3_invalid_input_iff {E : Type} (enc0 : E)
    (lame : LameEncoder E) (frames : List PCMFrame) (c : ℕ) :
    ((∃ msg, encodeMp3 enc0 lame frames c =
        Except.error (Mp3Error.invalidInput msg)) ↔
      (frames = [] ∨ c < 1 ∨ 2 < c)) ∧
    ((∃ out, encodeMp3 enc0 lame frames c = Except.ok out) ↔
      (frames ≠ [] ∧ 1 ≤ c ∧ c ≤ 2)) := by
  unfold encodeMp3
  by_cases h1 : frames.length = 0
  · rw [if_pos h1]
    rw [List.length_eq_zero] at h1
    simp [h1]
  · rw [if_neg h1]
    rw [List.length_eq_zero] at h1
    by_cases h2 : c < 1 ∨ c > 2
    · rw [if_pos h2]
      simp only [Except.error.injEq, Mp3Error.invalidInput.injEq]
      constructor
      · constructor
        · intro; right; omega
        · intro; exact ⟨_, rfl⟩
      · constructor
        · rintro ⟨out, h⟩; cases h
        · intro h; omega
    · rw [if_neg h2]
      constructor
      · constructor
        · rintro ⟨msg, h⟩; cases h
        · intro h
          rcases h with h | h
          · exact absurd h h1
          · omega
      · constructor
        · intro; exact ⟨h1, by omega⟩
        · intro; exact ⟨_, rfl⟩

/-- C10: when channelCount is 2 and a frame lacks its second channel buffer,
encodeMp3 feeds the first channel's converted samples again as the right
channel, while mergePCMFrames (used by encodeWav) substitutes a zero-filled
buffer of the first channel's length; on a full-scale 1.0 sample the two
encoders therefore produce different right-channel audio (32767 versus 0). -/
theorem missing_second_channel_divergence :
    (∀ buf : List ℚ, (mp3FrameFeed 2 [buf]).2 = some (float32ToInt16 buf)) ∧
    (∀ buf : List ℚ,
      mergePCMFrames [[buf]] 2 = [buf, List.replicate buf.length 0]) ∧
    (mp3FrameFeed 2 [[(1 : ℚ)]]).2 = some [32767] ∧
    float32ToInt16 (List.replicate 1 (0 : ℚ)) = [0] ∧
    ([32767] : List ℤ) ≠ [0] := by
  refine ⟨?_, ?_, ?_, ?_, by decide⟩
  · intro buf
    rfl
  · intro buf
    have hwf : ∀ f ∈ [[buf]], wfFrame f := by
      intro f hf
      simp only [List.mem_singleton] at hf
      subst hf
      intro b hb
      simp only [List.mem_singleton] at hb
      subst hb
      rfl
    rw [mergePCMFrames_eq_concat [[buf]] 2 hwf]
    show [([[buf]].map fun f => frameChannel f 0).flatten,
      ([[buf]].map fun f => frameChannel f 1).flatten] = _
    simp [frameChannel, headLen, List.getD]
  · with_unfolding_all rfl
  · with_unfolding_all rfl

/-- Errors surfaced through the hook's error channel. -/
inductive RecErr
  | notBrowser
  | permissionDenied
  | deviceUnavailable
  | formatUnsupported (f : RecorderFormat)
  | setupFailure (code : ℕ)
  deriving DecidableEq, Repr

/-- States of the underlying MediaRecorder handle. -/
inductive MRState
  | recording
  | paused
  | inactive
  deriving DecidableEq, Repr

/-- Model of the native MediaRecorder handle kept in mediaRecorderRef. -/
structure MediaRecorderModel where
  state : MRState
  deriving DecidableEq, Repr

/-- Which raw-tap processor node is installed: the AudioWorkletNode or the
ScriptProcessorNode fallback (useAudioRecorder.ts lines 216-249). -/
inductive TapKind
  | worklet
  | script
  deriving DecidableEq, Repr

/-- The AudioRecording descriptor produced by finalizeRecording
(useAudioRecorder.ts lines 189-196); url is the abstract object-URL handle. -/
structure AudioRecording where
  blob : List ℕ
  url : ℕ
  format : RecorderFormat
  duration : ℚ
  size : ℕ
  createdAt : ℕ
  deriving DecidableEq, Repr

/-- One recorder instance's session state: the React state cells (status,
recording, error, durationMs, bytes, stream) and the refs (mediaRecorderRef,
chunksRef, pcmFramesRef, audioContextRef, sourceNodeRef, gainNodeRef,
processorNodeRef with its connection, elapsedBeforePauseRef, activeStartRef,
autoStopTimeoutRef).  Node handles are modelled by presence. -/
structure RecorderState where
  status : RecorderStatus
  recording : Option AudioRecording
  error : Option RecErr
  durationMs : ℚ
  bytes : ℕ
  stream : Bool
  mediaRecorder : Option MediaRecorderModel
  chunks : List (List ℕ)
  pcmFrames : List PCMFrame
  audioContext : Bool
  sourceNode : Bool
  gainNode : Bool
  processorNode : Option TapKind
  processorConnected : Bool
  elapsedBeforePause : ℚ
  activeStart : Option ℚ
  autoStop : Option ℕ
  deriving DecidableEq, Repr

/-- Options the hook destructures (useAudioRecorder.ts lines 68-79); the
callbacks are modelled as emitted events. -/
structure RecorderOptions where
  format : RecorderFormat
  channelCount : ℕ
  sampleRate : ℕ
  timeSlice : ℕ
  autoStopMs : Option ℕ
  deriving DecidableEq, Repr

/-- Environment of one call: platform clock readings, the object-URL the
platform would mint, and the outcome of each external operation the call may
perform (getUserMedia, MediaRecorder availability for the requested mime,
audioWorklet presence, audioWorklet.addModule). -/
structure RecEnv where
  isBrowser : Bool
  getUserMedia : Except RecErr Unit
  canUseMediaRecorder : Bool
  workletAvailable : Bool
  addModule : Except RecErr Unit
  now : ℚ
  dateNow : ℕ
  url : ℕ
  deriving Repr

/-- Observable callback invocations of one call, in order: onError, onStop,
plus a marker recording that encodeWav was invoked. -/
inductive RecEvent
  | errorCb (e : RecErr)
  | stopCb (r : AudioRecording)
  | wavEncoded
  deriving DecidableEq, Repr

/-- computeDuration (useAudioRecorder.ts lines 121-126). -/
def computeDuration (env : RecEnv) (s : RecorderState) : ℚ :=
  match s.activeStart with
  | some t => s.elapsedBeforePause + (env.now - t)
  | none => s.elapsedBeforePause

/-- resetDuration (useAudioRecorder.ts lines 115-119). -/
def resetDuration (s : RecorderState) : RecorderState :=
  { s with elapsedBeforePause := 0, activeStart := none, durationMs := 0 }

/-- clearAutoStop (useAudioRecorder.ts lines 128-133). -/
def clearAutoStop (s : RecorderState) : RecorderState := { s with autoStop := none }

/-- handleError (useAudioRecorder.ts lines 135-142): set the error cell, fire
onError, set status unsupported. -/
def handleError (s : RecorderState) (e : RecErr) :
    RecorderState × List RecEvent :=
  ({ s with error := some e, status := RecorderStatus.unsupported },
    [RecEvent.errorCb e])

/-- cleanupAudioGraph (useAudioRecorder.ts lines 144-161). -/
def cleanupAudioGraph (s : RecorderState) : RecorderState :=
  { s with processorNode := none, processorConnected := false,
           sourceNode := false, gainNode := false, audioContext := false,
           pcmFrames := [] }

/-- cleanupStream (useAudioRecorder.ts lines 163-169). -/
def cleanupStream (s : RecorderState) : RecorderState := { s with stream := false }

/-- cleanupRecorder (useAudioRecorder.ts lines 171-182). -/
def cleanupRecorder (s : RecorderState) : RecorderState :=
  clearAutoStop (cleanupStream (cleanupAudioGraph
    { s with mediaRecorder := none, chunks := [], bytes := 0 }))

/-- finalizeRecording (useAudioRecorder.ts lines 184-202): build the
descriptor (duration from computeDuration), store it, fire onStop. -/
def finalizeRecording (opts : RecorderOptions) (env : RecEnv)
    (s : RecorderState) (blob : Option (List ℕ)) :
    RecorderState × Option AudioRecording × List RecEvent :=
  match blob with
  | none => (s, none, [])
  | some b =>
    let r : AudioRecording :=
      { blob := b, url := env.url, format := opts.format,
        duration := computeDuration env s, size := b.length,
        createdAt := env.dateNow }
    ({ s with recording := some r }, some r, [RecEvent.stopCb r])

/-- Result of one stop() call: the resulting session state, the returned
recording (or null), and the callbacks fired. -/
structure StopResult where
  state : RecorderState
  result : Option AudioRecording
  events : List RecEvent
  deriving Repr

/-- Embedding of stop (useAudioRecorder.ts lines 256-304).  From idle or
unsupported it returns the last-known recording untouched.  Otherwise it
marks the state stopped, and finalizes: with a media recorder present, both
the already-inactive and the awaited-stop branch assemble the blob from the
collected chunks (chunk delivery is environment-driven and already reflected
in chunks); on the raw-tap path a non-empty frame accumulator is encoded
through encodeWav; otherwise the call cleans up and returns null. -/
def stop (opts : RecorderOptions) (env : RecEnv) (s : RecorderState) :
    StopResult :=
  if s.status = RecorderStatus.idle ∨ s.status = RecorderStatus.unsupported then
    ⟨s, s.recording, []⟩
  else
    let s1 := { s with status := RecorderStatus.stopped, activeStart := none }
    match s1.mediaRecorder with
    | some r =>
      if r.state = MRState.inactive then
        let out := finalizeRecording opts env s1 (some s1.chunks.flatten)
        ⟨cleanupRecorder out.1, out.2.1, out.2.2⟩
      else
        let out := finalizeRecording opts env s1 (some s1.chunks.flatten)
        ⟨cleanupRecorder out.1, out.2.1, out.2.2⟩
    | none =>
      if s1.pcmFrames ≠ [] then
        let wav := encodeWavBytes s1.pcmFrames opts.sampleRate opts.channelCount
        let out := finalizeRecording opts env s1 (some wav)
        ⟨cleanupRecorder out.1, out.2.1, RecEvent.wavEncoded :: out.2.2⟩
      else
        ⟨cleanupRecorder s1, none, []⟩

/-- Embedding of buildPCMGraph (useAudioRecorder.ts lines 204-254) together
with ensurePCMWorkletModule (lines 47-65): the context, source and gain nodes
are created first; when the audioWorklet API is absent ensurePCMWorkletModule
returns false and the ScriptProcessorNode fallback is installed; when the API
is present, a failing addModule call rejects and the exception propagates to
the caller with the partially built graph left in the refs. -/
def buildPCMGraph (env : RecEnv) (s : RecorderState) :
    RecorderState × Option RecErr :=
  let s1 := { s with audioContext := true, sourceNode := true, gainNode := true }
  if env.workletAvailable then
    match env.addModule with
    | Except.error e => (s1, some e)
    | Except.ok _ =>
      ({ s1 with processorNode := some TapKind.worklet,
                 processorConnected := true }, none)
  else
    ({ s1 with processorNode := some TapKind.script,
               processorConnected := true }, none)

/-- Auto-stop arming at the end of a successful start (useAudioRecorder.ts
lines 363-368); a zero/absent autoStopMs is falsy and arms nothing. -/
def armAutoStop (opts : RecorderOptions) (s : RecorderState) : RecorderState :=
  match opts.autoStopMs with
  | some ms => { clearAutoStop s with autoStop := some ms }
  | none => s

/-- Result of one start() call. -/
structure StartResult where
  state : RecorderState
  events : List RecEvent
  deriving Repr

/-- The catch block of start (useAudioRecorder.ts lines 369-373): handleError
(error cell, onError, status unsupported), cleanupRecorder, then
setStatus(idle). -/
def startCatch (s : RecorderState) (e : RecErr) : StartResult :=
  let out := handleError s e
  ⟨{ cleanupRecorder out.1 with status := RecorderStatus.idle }, out.2⟩

/-- Embedding of start (useAudioRecorder.ts lines 306-389).  Every throwing
step inside the try block transfers the state mutated so far to the catch
block. -/
def start (opts : RecorderOptions) (env : RecEnv) (s : RecorderState) :
    StartResult :=
  if ¬ env.isBrowser then
    let out := handleError s RecErr.notBrowser
    ⟨out.1, out.2⟩
  else if s.status = RecorderStatus.recording then
    ⟨s, []⟩
  else
    match env.getUserMedia with
    | Except.error e => startCatch s e
    | Except.ok _ =>
      let s1 := { resetDuration { s with stream := true, chunks := [], pcmFrames := [] } with
                  activeStart := some env.now,
                  status := RecorderStatus.recording, error := none }
      if env.canUseMediaRecorder then
        ⟨armAutoStop opts { s1 with mediaRecorder := some ⟨MRState.recording⟩ }, []⟩
      else if opts.format = RecorderFormat.wav then
        match buildPCMGraph env s1 with
        | (s2, some e) => startCatch s2 e
        | (s2, none) => ⟨armAutoStop opts s2, []⟩
      else
        startCatch s1 (RecErr.formatUnsupported opts.format)

/-- Embedding of pause (useAudioRecorder.ts lines 391-408). -/
def pause (env : RecEnv) (s : RecorderState) : RecorderState :=
  if s.status ≠ RecorderStatus.recording then s
  else if s.mediaRecorder.map MediaRecorderModel.state = some MRState.recording then
    { s with mediaRecorder := some ⟨MRState.paused⟩,
             elapsedBeforePause := computeDuration env s, activeStart := none,
             status := RecorderStatus.paused }
  else if s.processorNode.isSome then
    { s with processorConnected := false,
             elapsedBeforePause := computeDuration env s, activeStart := none,
             status := RecorderStatus.paused }
  else s

/-- Embedding of resume (useAudioRecorder.ts lines 410-426). -/
def resume (env : RecEnv) (s : RecorderState) : RecorderState :=
  if s.status ≠ RecorderStatus.paused then s
  else if s.mediaRecorder.map MediaRecorderModel.state = some MRState.paused then
    { s with mediaRecorder := some ⟨MRState.recording⟩,
             activeStart := some env.now, status := RecorderStatus.recording }
  else if s.processorNode.isSome ∧ s.sourceNode ∧ s.gainNode then
    { s with processorConnected := true,
             activeStart := some env.now, status := RecorderStatus.recording }
  else s

/-- Freshly initialised hook state (useAudioRecorder.ts lines 81-100). -/
def initState : RecorderState :=
  { status := RecorderStatus.idle, recording := none, error := none,
    durationMs := 0, bytes := 0, stream := false, mediaRecorder := none,
    chunks := [], pcmFrames := [], audioContext := false, sourceNode := false,
    gainNode := false, processorNode := none, processorConnected := false,
    elapsedBeforePause := 0, activeStart := none, autoStop := none }

/-- A benign environment: browser present, all external calls succeed. -/
def envDefault : RecEnv :=
  ⟨true, Except.ok (), true, true, Except.ok (), 1000, 170000, 7⟩

/-- Options requesting wav at 48 kHz mono. -/
def optsWav : RecorderOptions := ⟨RecorderFormat.wav, 1, 48000, 0, none⟩

/-- A live raw-tap recording session holding one mono frame of one sample. -/
def rawSession : RecorderState :=
  { status := RecorderStatus.recording, recording := none, error := none,
    durationMs := 0, bytes := 0, stream := true, mediaRecorder := none,
    chunks := [], pcmFrames := [[[0]]], audioContext := true,
    sourceNode := true, gainNode := true, processorNode := some TapKind.worklet,
    processorConnected := true, elapsedBeforePause := 120, activeStart := none,
    autoStop := none }

/-- C8: pause() invoked in any state other than recording, and resume()
invoked in any state other than paused, are no-ops: the session state with
every field (duration counters, accumulator, graph handles) is returned
unchanged. -/
theorem pause_resume_noop_outside_valid_state (env env2 : RecEnv)
    (s t : RecorderState) (hp : s.status ≠ RecorderStatus.recording)
    (hr : t.status ≠ RecorderStatus.paused) :
    pause env s = s ∧ resume env2 t = t := by
  constructor
  · unfold pause
    rw [if_pos hp]
  · unfold resume
    rw [if_pos hr]

theorem pause_resume_noop_witness :
    pause envDefault initState = initState ∧
      resume envDefault initState = initState :=
  pause_resume_noop_outside_valid_state envDefault envDefault initState
    initState (by decide) (by decide)

/-- C9: on the raw-tap path (no media recorder handle), stop() taken from
recording or paused with an empty frame accumulator returns null, fires no
callback (in particular no onStop), never invokes encodeWav, and leaves the
stored recording unchanged. -/
theorem stop_empty_raw_tap_yields_null (opts : RecorderOptions) (env : RecEnv)
    (s : RecorderState)
    (hs : s.status = RecorderStatus.recording ∨ s.status = RecorderStatus.paused)
    (hmr : s.mediaRecorder = none) (hf : s.pcmFrames = []) :
    (stop opts env s).result = none ∧
    (stop opts env s).events = [] ∧
    (stop opts env s).state.recording = s.recording := by
  have hguard :
      ¬(s.status = RecorderStatus.idle ∨ s.status = RecorderStatus.unsupported) := by
    rcases hs with h | h <;> rw [h] <;> intro hcon <;>
      rcases hcon with hcon | hcon <;> cases hcon
  obtain ⟨st, rec, err, dur, byt, strm, mr, chk, pf, ac, sn, gn, pn, pc, ebp,
    act, aus⟩ := s
  dsimp only at hmr hf
  subst hmr hf
  unfold stop
  rw [if_neg hguard]
  simp [cleanupRecorder, cleanupStream, cleanupAudioGraph, clearAutoStop]

theorem stop_empty_raw_tap_witness :
    (stop optsWav envDefault { rawSession with pcmFrames := [] }).result = none ∧
    (stop optsWav envDefault { rawSession with pcmFrames := [] }).events = [] ∧
    (stop optsWav envDefault { rawSession with pcmFrames := [] }).state.recording =
      ({ rawSession with pcmFrames := [] } : RecorderState).recording :=
  stop_empty_raw_tap_yields_null optsWav envDefault
    { rawSession with pcmFrames := [] } (Or.inl rfl) rfl rfl

/-- C1 counterexample: from a live raw-tap session the first stop() produces
a recording descriptor, but a second stop() in succession returns null, not
the same descriptor. -/
theorem stop_twice_counterexample :
    (stop optsWav envDefault rawSession).result.isSome = true ∧
    (stop optsWav envDefault
      (stop optsWav envDefault rawSession).state).result = none := by
  constructor
  · with_unfolding_all rfl
  · with_unfolding_all rfl

/-- Every field cleanupRecorder clears is cleared in the state a non-no-op
stop() leaves behind, and the status is stopped with the clock stopped. -/
theorem stop_state_fields (opts : RecorderOptions) (env : RecEnv)
    (s : RecorderState)
    (h : ¬(s.status = RecorderStatus.idle ∨ s.status = RecorderStatus.unsupported)) :
    (stop opts env s).state.status = RecorderStatus.stopped ∧
    (stop opts env s).state.activeStart = none ∧
    (stop opts env s).state.mediaRecorder = none ∧
    (stop opts env s).state.chunks = [] ∧
    (stop opts env s).state.bytes = 0 ∧
    (stop opts env s).state.pcmFrames = [] ∧
    (stop opts env s).state.processorNode = none ∧
    (stop opts env s).state.processorConnected = false ∧
    (stop opts env s).state.sourceNode = false ∧
    (stop opts env s).state.gainNode = false ∧
    (stop opts env s).state.audioContext = false ∧
    (stop opts env s).state.stream = false ∧
    (stop opts env s).state.autoStop = none := by
  unfold stop
  rw [if_neg h]
  cases hmr : s.mediaRecorder with
  | none =>
    by_cases hpf : s.pcmFrames ≠ [] <;>
      simp [hmr, hpf, finalizeRecording, cleanupRecorder, cleanupStream,
        cleanupAudioGraph, clearAutoStop]
  | some r =>
    by_cases hst : r.state = MRState.inactive <;>
      simp [hmr, hst, finalizeRecording, cleanupRecorder, cleanupStream,
        cleanupAudioGraph, clearAutoStop]

/-- On a state whose session resources are already cleared and whose status
is stopped with the clock stopped, stop() is the identity returning null. -/
theorem stop_on_clean_state (opts : RecorderOptions) (env : RecEnv)
    (t : RecorderState) (hst : t.status = RecorderStatus.stopped)
    (hact : t.activeStart = none) (hmr : t.mediaRecorder = none)
    (hchk : t.chunks = []) (hbytes : t.bytes = 0) (hpf : t.pcmFrames = [])
    (hpn : t.processorNode = none) (hpc : t.processorConnected = false)
    (hsn : t.sourceNode = false) (hgn : t.gainNode = false)
    (hac : t.audioContext = false) (hstream : t.stream = false)
    (haus : t.autoStop = none) :
    stop opts env t = ⟨t, none, []⟩ := by
  obtain ⟨st, rec, err, dur, byt, strm, mr, chk, pf, ac, sn, gn, pn, pc, ebp,
    act, aus⟩ := t
  dsimp only at hst hact hmr hchk hbytes hpf hpn hpc hsn hgn hac hstream haus
  subst hst hact hmr hchk hbytes hpf hpn hpc hsn hgn hac hstream haus
  rfl

/-- C1 amended: calling stop() a second time in succession, after a stop()
taken from any live state, returns null rather than the first call's
RecordingDescriptor (the last-known recording is only returned from idle or
unsupported); the second call performs no re-finalization, fires no
callbacks, does not invoke encodeWav, and leaves the entire session state,
including the stored recording and the byte and duration counters,
unchanged. -/
theorem stop_second_call_returns_null_state_unchanged (opts : RecorderOptions)
    (env env2 : RecEnv) (s : RecorderState)
    (h : ¬(s.status = RecorderStatus.idle ∨ s.status = RecorderStatus.unsupported)) :
    stop opts env2 (stop opts env s).state =
      ⟨(stop opts env s).state, none, []⟩ := by
  obtain ⟨h1, h2, h3, h4, h5, h6, h7, h8, h9, h10, h11, h12, h13⟩ :=
    stop_state_fields opts env s h
  exact stop_on_clean_state opts env2 _ h1 h2 h3 h4 h5 h6 h7 h8 h9 h10 h11 h12 h13

theorem stop_second_call_witness :
    stop optsWav envDefault (stop optsWav envDefault rawSession).state =
      ⟨(stop optsWav envDefault rawSession).state, none, []⟩ :=
  stop_second_call_returns_null_state_unchanged optsWav envDefault envDefault
    rawSession (by decide)

/-- Options requesting mp3 at 48 kHz mono. -/
def optsMp3 : RecorderOptions := ⟨RecorderFormat.mp3, 1, 48000, 0, none⟩

/-- Environment with no native MediaRecorder support for the requested
format and no worklet, stream acquisition succeeding. -/
def envNoNative : RecEnv :=
  ⟨true, Except.ok (), false, false, Except.ok (), 500, 170, 9⟩

/-- C2 counterexample: requesting a format with no native support and no
fallback path surfaces FormatUnsupported through the error channel, but
start() returns with status idle, not unsupported (the catch block sets
idle after handleError set unsupported). -/
theorem start_unsupported_format_ends_idle :
    (start optsMp3 envNoNative initState).state.status = RecorderStatus.idle ∧
    (start optsMp3 envNoNative initState).events =
      [RecEvent.errorCb (RecErr.formatUnsupported RecorderFormat.mp3)] ∧
    (start optsMp3 envNoNative initState).state.status ≠
      RecorderStatus.unsupported := by
  refine ⟨?_, ?_, ?_⟩
  · with_unfolding_all rfl
  · with_unfolding_all rfl
  · have h1 : (start optsMp3 envNoNative initState).state.status =
        RecorderStatus.idle := by with_unfolding_all rfl
    rw [h1]
    intro hcon
    cases hcon

/-- Failure of the setup sequence inside start()'s try block: the stream
acquisition rejects, or no native recorder exists for a non-wav format, or
the wav raw-tap worklet module registration rejects. -/
def startSetupFails (opts : RecorderOptions) (env : RecEnv) : Prop :=
  (∃ e, env.getUserMedia = Except.error e) ∨
  (env.getUserMedia = Except.ok () ∧ env.canUseMediaRecorder = false ∧
    (opts.format ≠ RecorderFormat.wav ∨
      (opts.format = RecorderFormat.wav ∧ env.workletAvailable = true ∧
        ∃ e, env.addModule = Except.error e)))

/-- C2 amended: on every failure during start()'s setup sequence the failure
is surfaced once through the error channel (error cell set, onError fired)
and full resource cleanup is performed (stream, recorder, frames, audio
graph and auto-stop all released) before start() returns; the state passes
through unsupported inside handleError, but start()'s catch block then sets
it to idle, so start() returns with status idle rather than unsupported. -/
theorem start_failure_surfaces_error_cleans_up_ends_idle
    (opts : RecorderOptions) (env : RecEnv) (s : RecorderState)
    (hb : env.isBrowser = true) (hs : s.status ≠ RecorderStatus.recording)
    (hfail : startSetupFails opts env) :
    ∃ e, (start opts env s).state.status = RecorderStatus.idle ∧
      (start opts env s).state.error = some e ∧
      (start opts env s).events = [RecEvent.errorCb e] ∧
      (start opts env s).state.stream = false ∧
      (start opts env s).state.mediaRecorder = none ∧
      (start opts env s).state.pcmFrames = [] ∧
      (start opts env s).state.audioContext = false ∧
      (start opts env s).state.sourceNode = false ∧
      (start opts env s).state.gainNode = false ∧
      (start opts env s).state.processorNode = none ∧
      (start opts env s).state.autoStop = none := by
  unfold start
  rw [hb]
  rw [if_neg (fun hcon => hcon rfl)]
  rw [if_neg hs]
  rcases hfail with ⟨e, he⟩ | ⟨hok, hnomr, hrest⟩
  · rw [he]
    exact ⟨e, by simp [startCatch, handleError, cleanupRecorder, cleanupStream,
      cleanupAudioGraph, clearAutoStop]⟩
  · rw [hok]
    rw [hnomr]
    simp only [Bool.false_eq_true, if_false]
    rcases hrest with hfmt | ⟨hfmt, hwk, e, hmod⟩
    · rw [if_neg hfmt]
      exact ⟨RecErr.formatUnsupported opts.format,
        by simp [startCatch, handleError, cleanupRecorder, cleanupStream,
          cleanupAudioGraph, clearAutoStop]⟩
    · rw [if_pos hfmt]
      unfold buildPCMGraph
      rw [hwk]
      rw [hmod]
      exact ⟨e, by simp [startCatch, handleError, cleanupRecorder,
        cleanupStream, cleanupAudioGraph, clearAutoStop]⟩

theorem start_failure_witness :
    ∃ e, (start optsMp3 envNoNative initState).state.status = RecorderStatus.idle ∧
      (start optsMp3 envNoNative initState).state.error = some e ∧
      (start optsMp3 envNoNative initState).events = [RecEvent.errorCb e] ∧
      (start optsMp3 envNoNative initState).state.stream = false ∧
      (start optsMp3 envNoNative initState).state.mediaRecorder = none ∧
      (start optsMp3 envNoNative initState).state.pcmFrames = [] ∧
      (start optsMp3 envNoNative initState).state.audioContext = false ∧
      (start optsMp3 envNoNative initState).state.sourceNode = false ∧
      (start optsMp3 envNoNative initState).state.gainNode = false ∧
      (start optsMp3 envNoNative initState).state.processorNode = none ∧
      (start optsMp3 envNoNative initState).state.autoStop = none :=
  start_failure_surfaces_error_cleans_up_ends_idle optsMp3 envNoNative
    initState rfl (by decide)
    (Or.inr ⟨rfl, rfl, Or.inl (by decide)⟩)

/-- Environment where the audioWorklet API exists but module registration
rejects. -/
def envWorkletFails : RecEnv :=
  ⟨true, Except.ok (), false, true, Except.error (RecErr.setupFailure 1),
    500, 170, 9⟩

/-- C7 counterexample: when registration of the worklet processing module
fails (addModule rejects), recording does not continue through the fallback
tap: no processor node is installed, the failure is surfaced through the
error channel, and start() aborts into idle. -/
theorem worklet_registration_failure_aborts :
    (start optsWav envWorkletFails initState).state.processorNode = none ∧
    (start optsWav envWorkletFails initState).state.status = RecorderStatus.idle ∧
    (start optsWav envWorkletFails initState).events =
      [RecEvent.errorCb (RecErr.setupFailure 1)] := by
  refine ⟨?_, ?_, ?_⟩ <;> with_unfolding_all rfl

/-- Environment with no audioWorklet API at all; the synchronous fallback
path is taken. -/
def envNoWorklet : RecEnv :=
  ⟨true, Except.ok (), false, false, Except.ok (), 500, 170, 9⟩

/-- C7 amended: on the raw-tap path the silent fallback to the synchronous
ScriptProcessorNode happens exactly when the audioWorklet API is
unavailable; when the API is present but module registration rejects, the
exception propagates out of buildPCMGraph, start() aborts through its catch
block into idle with the failure surfaced on the error channel, and no tap
is installed. -/
theorem worklet_fallback_iff_api_missing (opts : RecorderOptions)
    (env : RecEnv) (s : RecorderState) (hb : env.isBrowser = true)
    (hs : s.status ≠ RecorderStatus.recording)
    (hgum : env.getUserMedia = Except.ok ())
    (hnomr : env.canUseMediaRecorder = false)
    (hfmt : opts.format = RecorderFormat.wav) :
    (env.workletAvailable = false →
      (start opts env s).state.status = RecorderStatus.recording ∧
      (start opts env s).state.processorNode = some TapKind.script ∧
      (start opts env s).events = []) ∧
    (∀ e, env.workletAvailable = true → env.addModule = Except.error e →
      (start opts env s).state.status = RecorderStatus.idle ∧
      (start opts env s).state.processorNode = none ∧
      (start opts env s).state.error = some e ∧
      (start opts env s).events = [RecEvent.errorCb e]) := by
  constructor
  · intro hwk
    unfold start
    rw [hb]
    rw [if_neg (fun hcon => hcon rfl)]
    rw [if_neg hs]
    rw [hgum]
    rw [hnomr]
    simp only [Bool.false_eq_true, if_false]
    rw [if_pos hfmt]
    unfold buildPCMGraph
    rw [hwk]
    simp [armAutoStop, clearAutoStop, resetDuration]
    rcases opts.autoStopMs with _ | ms <;> simp
  · intro e hwk hmod
    unfold start
    rw [hb]
    rw [if_neg (fun hcon => hcon rfl)]
    rw [if_neg hs]
    rw [hgum]
    rw [hnomr]
    simp only [Bool.false_eq_true, if_false]
    rw [if_pos hfmt]
    unfold buildPCMGraph
    rw [hwk]
    rw [hmod]
    simp [startCatch, handleError, cleanupRecorder, cleanupStream,
      cleanupAudioGraph, clearAutoStop]

theorem worklet_fallback_witness :
    (start optsWav envNoWorklet initState).state.status = RecorderStatus.recording ∧
    (start optsWav envNoWorklet initState).state.processorNode =
      some TapKind.script ∧
    (start optsWav envNoWorklet initState).events = [] :=
  (worklet_fallback_iff_api_missing optsWav envNoWorklet initState rfl
    (by decide) rfl rfl rfl).1 rfl

end AudioRec
